import Mathlib

/-!
# Verification of the SafeOutdoor risk-scoring and checklist engine

Shallow embedding of `backend/app/logic/risk_score.py` and
`backend/app/logic/checklist.py` over exact rationals (`ℚ`).

Conventions:
* A Python dict value that may be missing is an `Option`.  Where the code
  distinguishes a key that is absent (so `data.get(k, default)` yields the
  default) from a key that is present with value `None`, the field is an
  `Option (Option ℚ)`: `none` = key absent, `some none` = key present and
  null, `some (some x)` = numeric value `x`.
* Python floats are modelled as exact rationals; decimal literals in the
  source become the same decimal literals in `ℚ`.
* The single non-rational primitive in the source is `wind_mph ** 0.16`
  inside `calculate_wind_chill` (a real power with irrational exponent).
  It is kept as an explicit function parameter `rpow016 : ℚ → ℚ`; every
  theorem below holds for an arbitrary choice of it.
* Null (`None`) values for the `weather` and `activity` keys make the
  source raise `TypeError` (`None.get` / `None.lower()`), so the record
  type below does not admit them; all claims quantify over well-typed
  inputs only.
-/

namespace SafeOutdoor

/-- Python truthiness-based `a or b` for optional numbers: `a` unless `a`
is `None` or `0` (both falsy in Python), else `b`. -/
def pyOr (a b : Option ℚ) : Option ℚ :=
  match a with
  | some x => if x = 0 then b else some x
  | none => b

/-- Python `str.lower()`.  Defined structurally over the character list
(so that it reduces definitionally); it agrees with Python on ASCII
strings, and every activity tag the code compares against is ASCII. -/
def pyLower (s : String) : String := ⟨s.data.map Char.toLower⟩

/-- The `weather` sub-dict.  Each key is either present with a numeric
value or effectively missing (`weather.get(k)` returns `None` both for an
absent key and for an explicit null, and the code only ever tests `None`).
Fields default to `none` so record literals list only the present keys. -/
structure Weather where
  temp_c : Option ℚ := none
  temp : Option ℚ := none
  temperature : Option ℚ := none
  wind_speed_kmh : Option ℚ := none
  wind_speed : Option ℚ := none
  precipitation_mm : Option ℚ := none
  precipitation : Option ℚ := none
  humidity : Option ℚ := none
deriving Repr, DecidableEq

/-- The top-level input record of `calculate_safety_score`. -/
structure InputData where
  activity : Option String := none
  aqi : Option (Option ℚ) := none
  pm25 : Option (Option ℚ) := none
  uv_index : Option (Option ℚ) := none
  elevation : Option (Option ℚ) := none
  weather : Option Weather := none
deriving Repr, DecidableEq

/-- `risk_score.py` lines 162-227, `calculate_air_quality_score`.
Primary path: AQI present and `> 0`; fallback: PM2.5 present and `>= 0`;
last resort: the neutral `7.0`. -/
def calculate_air_quality_score (aqi pm25 : Option ℚ) : ℚ :=
  -- Fallback: calculate from PM2.5 if AQI unavailable; last resort 7.0
  let pm25_path : ℚ :=
    match pm25 with
    | some p =>
      if 0 ≤ p then
        if p ≤ 12.0 then 10.0 - (p / 12.0 * 0.5)
        else if p ≤ 35.0 then 8.0 - ((p - 12.0) / 23.0 * 1.2)
        else if p ≤ 55.0 then 5.5 - ((p - 35.0) / 20.0 * 1.5)
        else if p ≤ 150.0 then 3.5 - ((p - 55.0) / 95.0 * 1.5)
        else max 0.0 (1.5 - ((p - 150.0) / 100.0 * 1.0))
      else 7.0
    | none => 7.0
  -- Primary: use AQI if available
  match aqi with
  | some a =>
    if 0 < a then
      if a ≤ 50 then 10.0 - (a / 50.0 * 0.5)
      else if a ≤ 100 then 8.0 - ((a - 50) / 50.0 * 1.2)
      else if a ≤ 150 then 5.5 - ((a - 100) / 50.0 * 1.5)
      else if a ≤ 200 then 3.5 - ((a - 150) / 50.0 * 1.5)
      else if a ≤ 300 then 1.5 - ((a - 200) / 100.0 * 1.0)
      else max 0.0 (0.5 - ((a - 300) / 200.0 * 0.5))
    else pm25_path
  | none => pm25_path

/-- `risk_score.py` lines 386-420, `calculate_uv_score`. -/
def calculate_uv_score (uv_index : Option ℚ) : ℚ :=
  -- Handle null values with conservative fallback
  let u0 := uv_index.getD 5.0
  -- Clamp to reasonable range (cap at 20)
  let u := max 0 (min 20 u0)
  if u ≤ 2 then 10.0
  else if u ≤ 5 then 9.5 - (u - 2) * 0.33
  else if u ≤ 7 then 8.0 - (u - 5) * 0.75
  else if u ≤ 10 then 6.0 - (u - 7) * 0.67
  else max 0.0 (3.5 - (u - 10) * 0.35)

/-- `risk_score.py` lines 423-488, `calculate_terrain_score`.
`activity` is the Python `str` argument; `activity.lower() if activity
else ""` collapses to `pyLower` because `pyLower "" = ""`. -/
def calculate_terrain_score (elevation : Option ℚ) (activity : String) : ℚ :=
  -- Handle null or negative elevation, clamp to Mt. Everest height
  let e0 : ℚ :=
    match elevation with
    | some e => if e < 0 then 0 else e
    | none => 0
  let e := min e0 8850
  -- BASE SCORE - altitude effects
  let base_score : ℚ :=
    if e < 1500 then 10.0
    else if e < 2500 then 9.5 - (e - 1500) / 1000 * 0.5
    else if e < 3500 then 8.5 - (e - 2500) / 1000 * 1.5
    else if e < 5000 then 6.5 - (e - 3500) / 1500 * 2.5
    else max 0.0 (3.5 - (e - 5000) / 1000 * 0.9)
  -- ACTIVITY ADJUSTMENTS
  let activity_lower := pyLower activity
  let adjustment : ℚ :=
    if activity_lower = "mountaineering" ∨ activity_lower = "rock_climbing" ∨
        activity_lower = "alpinism" then
      if 3500 < e then -0.5 else 0.5
    else if activity_lower = "running" ∨ activity_lower = "trail_running" ∨
        activity_lower = "cycling" then
      if 2000 < e then -1.0 else if 1500 < e then -0.5 else 0.0
    else if activity_lower = "hiking" ∨ activity_lower = "trekking" ∨
        activity_lower = "backpacking" then 0.0
    else 0.0
  max 0.0 (min 10.0 (base_score + adjustment))

/-- `risk_score.py` lines 230-254, `calculate_heat_index` (NOAA Rothfusz
regression; purely polynomial, hence exact over `ℚ`). -/
def calculate_heat_index (temp_c humidity : ℚ) : ℚ :=
  let temp_f := temp_c * 9 / 5 + 32
  if temp_f < 80 then temp_c
  else
    let hi := -42.379 + 2.04901523 * temp_f + 10.14333127 * humidity
      - 0.22475541 * temp_f * humidity - 0.00683783 * temp_f * temp_f
      - 0.05481717 * humidity * humidity + 0.00122874 * temp_f * temp_f * humidity
      + 0.00085282 * temp_f * humidity * humidity
      - 0.00000199 * temp_f * temp_f * humidity * humidity
    (hi - 32) * 5 / 9

/-- `risk_score.py` lines 257-279, `calculate_wind_chill`.  `rpow016 x`
stands for the Python expression `x ** 0.16`. -/
def calculate_wind_chill (rpow016 : ℚ → ℚ) (temp_c wind_kmh : ℚ) : ℚ :=
  if 10 < temp_c ∨ wind_kmh < 5 then temp_c
  else
    let wind_mph := wind_kmh * 0.621371
    let temp_f := temp_c * 9 / 5 + 32
    let wc := 35.74 + 0.6215 * temp_f - 35.75 * rpow016 wind_mph
      + 0.4275 * temp_f * rpow016 wind_mph
    (wc - 32) * 5 / 9

/-- `risk_score.py` lines 302-316: field extraction at the top of
`calculate_weather_score`.  The `or`-chains use Python truthiness (`pyOr`),
then `None` checks substitute the defaults 20 / 10 / 50; the
precipitation chain ends in `or 0` so its value is never `None`.
Returns `(temp_c, wind_speed_kmh, precipitation_mm, humidity)`. -/
def weatherExtract (weather : Weather) : ℚ × ℚ × ℚ × ℚ :=
  let temp_c := pyOr (pyOr weather.temp_c weather.temp) weather.temperature
  let wind_speed_kmh := pyOr weather.wind_speed_kmh weather.wind_speed
  let precipitation_mm :=
    (pyOr (pyOr weather.precipitation_mm weather.precipitation) (some 0)).getD 0
  let humidity := weather.humidity
  (temp_c.getD 20, wind_speed_kmh.getD 10, precipitation_mm, humidity.getD 50)

/-- `risk_score.py` lines 330-341: the temperature zone table applied to
the apparent temperature. -/
def temp_score_of (apparent_temp : ℚ) : ℚ :=
  if 18 ≤ apparent_temp ∧ apparent_temp ≤ 24 then 10.0
  else if (15 ≤ apparent_temp ∧ apparent_temp < 18) ∨
      (24 < apparent_temp ∧ apparent_temp ≤ 27) then 9.0
  else if (10 ≤ apparent_temp ∧ apparent_temp < 15) ∨
      (27 < apparent_temp ∧ apparent_temp ≤ 32) then 7.0
  else if (5 ≤ apparent_temp ∧ apparent_temp < 10) ∨
      (32 < apparent_temp ∧ apparent_temp ≤ 38) then 4.0
  else if (0 ≤ apparent_temp ∧ apparent_temp < 5) ∨
      (38 < apparent_temp ∧ apparent_temp ≤ 43) then 2.0
  else 1.0

/-- `risk_score.py` lines 343-353: the wind component of the weather
sub-score. -/
def wind_score_of (wind_speed_kmh : ℚ) : ℚ :=
  if wind_speed_kmh < 15 then 10.0
  else if wind_speed_kmh < 30 then 9.0 - (wind_speed_kmh - 15) * 0.067
  else if wind_speed_kmh < 50 then 8.0 - (wind_speed_kmh - 30) * 0.15
  else if wind_speed_kmh < 70 then 5.0 - (wind_speed_kmh - 50) * 0.15
  else max 0.0 (2.0 - (wind_speed_kmh - 70) * 0.05)

/-- `risk_score.py` lines 355-363: the precipitation component. -/
def precip_score_of (precipitation_mm : ℚ) : ℚ :=
  if precipitation_mm < 2 then 10.0
  else if precipitation_mm < 10 then 8.0 - (precipitation_mm - 2) * 0.25
  else if precipitation_mm < 25 then 6.0 - (precipitation_mm - 10) * 0.2
  else max 0.0 (3.0 - (precipitation_mm - 25) * 0.06)

/-- `risk_score.py` lines 365-373: the humidity component. -/
def humidity_score_of (humidity : ℚ) : ℚ :=
  if 30 ≤ humidity ∧ humidity ≤ 70 then 10.0
  else if (20 ≤ humidity ∧ humidity < 30) ∨ (70 < humidity ∧ humidity ≤ 80) then 8.0
  else if humidity < 20 ∨ (80 < humidity ∧ humidity ≤ 90) then 6.0
  else 4.0

/-- `risk_score.py` lines 282-383, `calculate_weather_score`. -/
def calculate_weather_score (rpow016 : ℚ → ℚ) (weather : Weather) : ℚ :=
  let v := weatherExtract weather
  let temp_c := v.1
  let wind_speed_kmh := v.2.1
  let precipitation_mm := v.2.2.1
  let humidity := v.2.2.2
  -- apparent temperature: heat index when hot and humid, wind chill when cold and windy
  let apparent_temp :=
    if 26 < temp_c ∧ 40 < humidity then calculate_heat_index temp_c humidity
    else if temp_c < 10 ∧ 5 < wind_speed_kmh then
      calculate_wind_chill rpow016 temp_c wind_speed_kmh
    else temp_c
  let weather_score :=
    temp_score_of apparent_temp * 0.50 + wind_score_of wind_speed_kmh * 0.30 +
    precip_score_of precipitation_mm * 0.15 + humidity_score_of humidity * 0.05
  max 0.0 (min 10.0 weather_score)

/-- Python `round(x, 1)`: round half to even at one decimal place. -/
def pyRound1 (q : ℚ) : ℚ :=
  let t := q * 10
  let f : ℤ := ⌊t⌋
  let r := t - f
  let n : ℤ :=
    if r < 1/2 then f
    else if 1/2 < r then f + 1
    else if f % 2 = 0 then f else f + 1
  (n : ℚ) / 10

/-- One entry of the `risk_factors` list. -/
structure RiskFactor where
  factor : String
  score : ℚ
  weight : ℚ
deriving Repr, DecidableEq

/-- The result dict of `calculate_safety_score`. -/
structure SafetyResult where
  score : ℚ
  category : String
  advice : String
  risk_factors : List RiskFactor
  warnings : List String
deriving Repr, DecidableEq

/-- `risk_score.py` line 75: `AIR_QUALITY_WEIGHT`. -/
def AIR_QUALITY_WEIGHT : ℚ := 0.50
/-- `risk_score.py` line 76: `WEATHER_WEIGHT`. -/
def WEATHER_WEIGHT : ℚ := 0.30
/-- `risk_score.py` line 77: `UV_WEIGHT`. -/
def UV_WEIGHT : ℚ := 0.12
/-- `risk_score.py` line 78: `TERRAIN_WEIGHT`. -/
def TERRAIN_WEIGHT : ℚ := 0.08

/-- `data.get("aqi", 50)`: the default fires only when the key is absent;
a key that is present and null is passed through as null. -/
def resolvedAqi (data : InputData) : Option ℚ := data.aqi.getD (some 50)

/-- `data.get("pm25", 15.0)`. -/
def resolvedPm25 (data : InputData) : Option ℚ := data.pm25.getD (some 15.0)

/-! Warning strings (`risk_score.py` lines 541-617).  The byte content of
the literals below reproduces the source file exactly, including its
(double-encoded) emoji prefixes. -/

def warn_aqi_hazardous : String :=
  "‚ö†Ô∏è Air quality is hazardous - outdoor activity not recommended"
def warn_aqi_unhealthy : String :=
  "‚ö†Ô∏è Air quality unhealthy - limit outdoor exposure and take frequent breaks"
def warn_aqi_sensitive : String :=
  "‚ö†Ô∏è Air quality unhealthy for sensitive groups - consider N95 mask"
def warn_pm25_high : String :=
  "‚ö†Ô∏è High particulate matter - respiratory protection recommended"
def warn_uv_extreme : String :=
  "‚òÄÔ∏è Extreme UV - minimize sun exposure, full protection required"
def warn_uv_very_high : String :=
  "‚òÄÔ∏è Very high UV - sunscreen SPF 50+, hat, and protective clothing required"
def warn_uv_high : String :=
  "‚òÄÔ∏è High UV - sunscreen and hat recommended"
def warn_heat_extreme : String :=
  "üå°Ô∏è Extreme heat warning - high risk of heat stroke"
def warn_heat_high : String :=
  "üå°Ô∏è High temperature - stay hydrated, take frequent breaks in shade"
def warn_cold_extreme : String :=
  "‚ùÑÔ∏è Extreme cold - risk of frostbite and hypothermia"
def warn_cold_freezing : String :=
  "‚ùÑÔ∏è Below freezing - dress in layers, protect extremities"
def warn_wind_dangerous : String :=
  "üí® Dangerous wind speeds - outdoor activities extremely hazardous"
def warn_wind_high : String :=
  "üí® High winds - exercise extreme caution, especially on exposed terrain"
def warn_wind_moderate : String :=
  "üí® Moderate winds - be cautious on ridges and exposed areas"
def warn_precip_heavy : String :=
  "üåßÔ∏è Heavy precipitation forecast - trail conditions may be hazardous"
def warn_precip_moderate : String :=
  "üåßÔ∏è Moderate rain expected - bring waterproof gear"
def warn_alt_very_high : String :=
  "‚õ∞Ô∏è Very high altitude - risk of altitude sickness, acclimatize gradually"
def warn_alt_high : String :=
  "‚õ∞Ô∏è High altitude - monitor for symptoms of altitude sickness"
def warn_alt_moderate : String :=
  "‚õ∞Ô∏è Moderate altitude - stay hydrated and pace yourself"
def warn_aerobic_aqi : String :=
  "üèÉ Aerobic activity with poor air quality - consider indoor alternative"
def warn_climb_wind : String :=
  "üßó Climbing in high winds is dangerous - consider postponing"

/-- `risk_score.py` lines 541-617, `generate_warnings`.  Each sequential
`warnings.append` under an `if`/`elif` chain becomes one guarded singleton
in a list concatenation, in source order. -/
def generate_warnings (data : InputData) : List String :=
  let aqi := data.aqi.join
  let pm25 := data.pm25.join
  let uv_index := data.uv_index.join
  let weather := data.weather.getD {}
  let elevation := data.elevation.join
  let activity := pyLower (data.activity.getD "")
  let temp := weather.temp_c
  let wind := weather.wind_speed_kmh
  let precip := weather.precipitation_mm
  -- air quality warnings (with null checks)
  (match aqi with
   | some a =>
     if 200 < a then [warn_aqi_hazardous]
     else if 150 < a then [warn_aqi_unhealthy]
     else if 100 < a then [warn_aqi_sensitive]
     else []
   | none => []) ++
  (match pm25 with
   | some p => if 35 < p then [warn_pm25_high] else []
   | none => []) ++
  -- UV warnings
  (match uv_index with
   | some u =>
     if 11 ≤ u then [warn_uv_extreme]
     else if 8 ≤ u then [warn_uv_very_high]
     else if 6 ≤ u then [warn_uv_high]
     else []
   | none => []) ++
  -- weather warnings
  (match temp with
   | some t =>
     if 38 < t then [warn_heat_extreme]
     else if 32 < t then [warn_heat_high]
     else if t < -15 then [warn_cold_extreme]
     else if t < 0 then [warn_cold_freezing]
     else []
   | none => []) ++
  (match wind with
   | some w =>
     if 60 < w then [warn_wind_dangerous]
     else if 40 < w then [warn_wind_high]
     else if 25 < w then [warn_wind_moderate]
     else []
   | none => []) ++
  (match precip with
   | some p =>
     if 50 < p then [warn_precip_heavy]
     else if 20 < p then [warn_precip_moderate]
     else []
   | none => []) ++
  -- elevation warnings
  (match elevation with
   | some e =>
     if 4000 < e then [warn_alt_very_high]
     else if 3000 < e then [warn_alt_high]
     else if 2500 < e then [warn_alt_moderate]
     else []
   | none => []) ++
  -- activity-specific warnings
  (if activity = "running" ∨ activity = "cycling" ∨ activity = "trail_running" then
     match aqi with
     | some a => if 100 < a then [warn_aerobic_aqi] else []
     | none => []
   else []) ++
  (if activity = "rock_climbing" ∨ activity = "mountaineering" then
     match wind with
     | some w => if 30 < w then [warn_climb_wind] else []
     | none => []
   else [])

/-- `risk_score.py` lines 39-159, `calculate_safety_score`. -/
def calculate_safety_score (rpow016 : ℚ → ℚ) (data : InputData) : SafetyResult :=
  let air_score := calculate_air_quality_score (resolvedAqi data) (resolvedPm25 data)
  let weather_score := calculate_weather_score rpow016 (data.weather.getD {})
  let uv_score := calculate_uv_score (data.uv_index.getD (some 5.0))
  let terrain_score :=
    calculate_terrain_score (data.elevation.getD (some 0)) (data.activity.getD "hiking")
  -- weighted average
  let total0 :=
    air_score * AIR_QUALITY_WEIGHT + weather_score * WEATHER_WEIGHT +
    uv_score * UV_WEIGHT + terrain_score * TERRAIN_WEIGHT
  -- clamp to 0-10 range
  let total := max 0.0 (min 10.0 total0)
  -- determine category
  let ca : String × String :=
    if 8.5 ≤ total then ("Excellent", "Perfect conditions for outdoor activities")
    else if 7.0 ≤ total then ("Good", "Good conditions with minor considerations")
    else if 5.5 ≤ total then ("Fair", "Acceptable conditions - take precautions")
    else if 4.0 ≤ total then ("Caution", "Challenging conditions - extra precautions needed")
    else ("Poor", "Unsafe conditions - consider postponing")
  { score := pyRound1 total
    category := ca.1
    advice := ca.2
    risk_factors :=
      [⟨"Air Quality", pyRound1 air_score, AIR_QUALITY_WEIGHT⟩,
       ⟨"Weather", pyRound1 weather_score, WEATHER_WEIGHT⟩,
       ⟨"UV Exposure", pyRound1 uv_score, UV_WEIGHT⟩,
       ⟨"Terrain", pyRound1 terrain_score, TERRAIN_WEIGHT⟩]
    warnings := generate_warnings data }

/-! ## Shared bound lemmas -/

theorem clamp01_bounds (x : ℚ) :
    0 ≤ max 0.0 (min 10.0 x) ∧ max 0.0 (min 10.0 x) ≤ 10 :=
  ⟨le_trans (by norm_num) (le_max_left _ _),
   max_le (by norm_num) ((min_le_left _ _).trans (by norm_num))⟩

set_option maxHeartbeats 1000000 in
theorem calculate_air_quality_score_bounds (aqi pm25 : Option ℚ) :
    0 ≤ calculate_air_quality_score aqi pm25 ∧
      calculate_air_quality_score aqi pm25 ≤ 10 := by
  unfold calculate_air_quality_score
  rcases aqi with _ | a <;> rcases pm25 with _ | p <;>
    dsimp only <;> (try split_ifs) <;> constructor <;>
    first
      | linarith
      | exact le_trans (by norm_num) (le_max_left _ _)
      | exact max_le (by norm_num) (by linarith)

theorem calculate_uv_score_bounds (uv_index : Option ℚ) :
    0 ≤ calculate_uv_score uv_index ∧ calculate_uv_score uv_index ≤ 10 := by
  unfold calculate_uv_score
  dsimp only
  split_ifs <;> constructor <;>
    first
      | linarith
      | exact le_trans (by norm_num) (le_max_left _ _)
      | exact max_le (by norm_num) (by linarith)

theorem calculate_weather_score_bounds (rpow016 : ℚ → ℚ) (weather : Weather) :
    0 ≤ calculate_weather_score rpow016 weather ∧
      calculate_weather_score rpow016 weather ≤ 10 := by
  unfold calculate_weather_score
  exact clamp01_bounds _

theorem calculate_terrain_score_bounds (elevation : Option ℚ) (activity : String) :
    0 ≤ calculate_terrain_score elevation activity ∧
      calculate_terrain_score elevation activity ≤ 10 := by
  unfold calculate_terrain_score
  exact clamp01_bounds _

theorem pyRound1_bounds (x : ℚ) (h0 : 0 ≤ x) (h10 : x ≤ 10) :
    0 ≤ pyRound1 x ∧ pyRound1 x ≤ 10 := by
  unfold pyRound1
  have hfq : (⌊x * 10⌋ : ℚ) ≤ x * 10 := Int.floor_le _
  have hf0 : (0:ℤ) ≤ ⌊x * 10⌋ := Int.floor_nonneg.mpr (by linarith)
  have hf100 : ⌊x * 10⌋ ≤ 100 := by
    have h := Int.floor_le_floor (α := ℚ) (show x * 10 ≤ 100 by linarith)
    simpa using h
  have hf100q : (⌊x * 10⌋ : ℚ) ≤ 100 := by exact_mod_cast hf100
  have hf0q : (0:ℚ) ≤ (⌊x * 10⌋ : ℚ) := by exact_mod_cast hf0
  dsimp only
  split_ifs with h1 h2 h3 <;> constructor <;>
    first
      | positivity
      | (rw [div_le_iff (by norm_num : (0:ℚ) < 10)]; push_cast; linarith)
      | (apply div_nonneg _ (by norm_num); push_cast; linarith)
      | (rw [div_le_iff (by norm_num : (0:ℚ) < 10)]; push_cast
         have h99 : (⌊x * 10⌋ : ℚ) ≤ 99 := by
           have : (⌊x * 10⌋ : ℚ) < 100 := by linarith
           have hz : ⌊x * 10⌋ < 100 := by exact_mod_cast this
           exact_mod_cast Int.lt_add_one_iff.mp hz
         linarith)


/-! ## Claim theorems: aggregator (C1, C2, C7, C10) -/

/-- **C1.** For every input record, the score reported by
`calculate_safety_score` before rounding equals the weighted sum
`0.50*air + 0.30*weather + 0.12*uv + 0.08*terrain` clamped to `[0,10]`;
the `score` field is that clamped total rounded to 1 decimal; and the four
sub-scores appear in `risk_factors` rounded to 1 decimal with exactly
those weights in the fixed order Air/Weather/UV/Terrain. -/
theorem C1_weighted_sum_and_risk_factors (rpow016 : ℚ → ℚ) (data : InputData) :
    (calculate_safety_score rpow016 data).score =
      pyRound1 (max 0.0 (min 10.0
        (0.50 * calculate_air_quality_score (resolvedAqi data) (resolvedPm25 data) +
         0.30 * calculate_weather_score rpow016 (data.weather.getD {}) +
         0.12 * calculate_uv_score (data.uv_index.getD (some 5.0)) +
         0.08 * calculate_terrain_score (data.elevation.getD (some 0))
           (data.activity.getD "hiking")))) ∧
    (calculate_safety_score rpow016 data).risk_factors =
      [⟨"Air Quality",
        pyRound1 (calculate_air_quality_score (resolvedAqi data) (resolvedPm25 data)), 0.50⟩,
       ⟨"Weather", pyRound1 (calculate_weather_score rpow016 (data.weather.getD {})), 0.30⟩,
       ⟨"UV Exposure", pyRound1 (calculate_uv_score (data.uv_index.getD (some 5.0))), 0.12⟩,
       ⟨"Terrain",
        pyRound1 (calculate_terrain_score (data.elevation.getD (some 0))
          (data.activity.getD "hiking")), 0.08⟩] := by
  unfold calculate_safety_score AIR_QUALITY_WEIGHT WEATHER_WEIGHT UV_WEIGHT TERRAIN_WEIGHT
  dsimp only
  constructor
  · congr 3
    ring
  · rfl

/-- The five category bands exactly as the claim states them, indexed
high to low: `0 ↦ Excellent, 1 ↦ Good, 2 ↦ Fair, 3 ↦ Caution, 4 ↦ Poor`. -/
def categoryCond (i : Fin 5) (t : ℚ) : Prop :=
  match i with
  | 0 => 8.5 ≤ t
  | 1 => 7.0 ≤ t ∧ t < 8.5
  | 2 => 5.5 ≤ t ∧ t < 7.0
  | 3 => 4.0 ≤ t ∧ t < 5.5
  | 4 => t < 4.0

/-- **C2.** The category (and its fixed advice string) is assigned from
the unrounded clamped total by the thresholds 8.5 / 7.0 / 5.5 / 4.0
evaluated high to low, while the displayed `score` is the rounding of
that same total; and for every total exactly one of the five
non-overlapping category bands applies. -/
theorem C2_category_thresholds (rpow016 : ℚ → ℚ) (data : InputData) :
    (∃ total : ℚ,
      total = max 0.0 (min 10.0
        (calculate_air_quality_score (resolvedAqi data) (resolvedPm25 data) *
            AIR_QUALITY_WEIGHT +
         calculate_weather_score rpow016 (data.weather.getD {}) * WEATHER_WEIGHT +
         calculate_uv_score (data.uv_index.getD (some 5.0)) * UV_WEIGHT +
         calculate_terrain_score (data.elevation.getD (some 0))
           (data.activity.getD "hiking") * TERRAIN_WEIGHT)) ∧
      (calculate_safety_score rpow016 data).score = pyRound1 total ∧
      (calculate_safety_score rpow016 data).category =
        (if 8.5 ≤ total then "Excellent"
         else if 7.0 ≤ total then "Good"
         else if 5.5 ≤ total then "Fair"
         else if 4.0 ≤ total then "Caution"
         else "Poor") ∧
      (calculate_safety_score rpow016 data).advice =
        (if 8.5 ≤ total then "Perfect conditions for outdoor activities"
         else if 7.0 ≤ total then "Good conditions with minor considerations"
         else if 5.5 ≤ total then "Acceptable conditions - take precautions"
         else if 4.0 ≤ total then "Challenging conditions - extra precautions needed"
         else "Unsafe conditions - consider postponing")) ∧
    (∀ t : ℚ, ∃! i : Fin 5, categoryCond i t) := by
  constructor
  · refine ⟨_, rfl, ?_, ?_, ?_⟩ <;>
      (unfold calculate_safety_score; dsimp only; try (split_ifs <;> rfl))
  · intro t
    rcases le_or_lt 8.5 t with h1 | h1
    · exact ⟨0, h1, by intro j hj; fin_cases j <;>
        simp only [categoryCond] at hj ⊢ <;> first | rfl | (exfalso; rcases hj with ⟨hl, hr⟩ | hj <;> linarith) | (exfalso; linarith) | (exfalso; exact absurd h1 (by rcases hj with ⟨hl, hr⟩; linarith))⟩
    rcases le_or_lt 7.0 t with h2 | h2
    · refine ⟨1, ⟨h2, h1⟩, ?_⟩
      intro j hj
      fin_cases j <;> simp only [categoryCond] at hj ⊢ <;>
        first | rfl | (exfalso; try rcases hj with ⟨hl, hr⟩) <;> linarith
    rcases le_or_lt 5.5 t with h3 | h3
    · refine ⟨2, ⟨h3, h2⟩, ?_⟩
      intro j hj
      fin_cases j <;> simp only [categoryCond] at hj ⊢ <;>
        first | rfl | (exfalso; try rcases hj with ⟨hl, hr⟩) <;> linarith
    rcases le_or_lt 4.0 t with h4 | h4
    · refine ⟨3, ⟨h4, h3⟩, ?_⟩
      intro j hj
      fin_cases j <;> simp only [categoryCond] at hj ⊢ <;>
        first | rfl | (exfalso; try rcases hj with ⟨hl, hr⟩) <;> linarith
    · refine ⟨4, h4, ?_⟩
      intro j hj
      fin_cases j <;> simp only [categoryCond] at hj ⊢ <;>
        first | rfl | (exfalso; try rcases hj with ⟨hl, hr⟩) <;> linarith


/-- **C7.** `calculate_safety_score` is total over well-typed inputs: for
every record (any subset of optional fields absent, including the empty
record) it produces a complete result — in this embedding the function is
total by construction, the source raising no exception on such inputs —
with `score ∈ [0,10]` and every `risk_factors` sub-score in `[0,10]`; and
`calculate_air_quality_score` is bounded in `[0,10]` for every argument
pair (in particular for every `aqi ≥ 0`). -/
theorem C7_totality_and_bounds (rpow016 : ℚ → ℚ) (data : InputData) :
    (0 ≤ (calculate_safety_score rpow016 data).score ∧
      (calculate_safety_score rpow016 data).score ≤ 10) ∧
    (∀ f ∈ (calculate_safety_score rpow016 data).risk_factors,
      0 ≤ f.score ∧ f.score ≤ 10) ∧
    (∀ aqi pm25 : Option ℚ,
      0 ≤ calculate_air_quality_score aqi pm25 ∧
        calculate_air_quality_score aqi pm25 ≤ 10) := by
  refine ⟨?_, ?_, calculate_air_quality_score_bounds⟩
  · unfold calculate_safety_score
    dsimp only
    exact pyRound1_bounds _ (clamp01_bounds _).1 (clamp01_bounds _).2
  · intro f hf
    unfold calculate_safety_score at hf
    dsimp only at hf
    simp only [List.mem_cons, List.not_mem_nil, or_false] at hf
    rcases hf with rfl | rfl | rfl | rfl
    · exact pyRound1_bounds _ (calculate_air_quality_score_bounds _ _).1
        (calculate_air_quality_score_bounds _ _).2
    · exact pyRound1_bounds _ (calculate_weather_score_bounds _ _).1
        (calculate_weather_score_bounds _ _).2
    · exact pyRound1_bounds _ (calculate_uv_score_bounds _).1
        (calculate_uv_score_bounds _).2
    · exact pyRound1_bounds _ (calculate_terrain_score_bounds _ _).1
        (calculate_terrain_score_bounds _ _).2

/-- Witness for `C7_totality_and_bounds`: the all-defaults empty record
and a concrete extreme AQI/PM2.5 pair. -/
theorem C7_totality_and_bounds_witness :
    (0 ≤ (calculate_safety_score id {}).score ∧
      (calculate_safety_score id {}).score ≤ 10) ∧
    (0 ≤ calculate_air_quality_score (some 500) (some (-3)) ∧
      calculate_air_quality_score (some 500) (some (-3)) ≤ 10) :=
  ⟨(C7_totality_and_bounds id {}).1,
   (C7_totality_and_bounds id {}).2.2 (some 500) (some (-3))⟩

/-- The guard of the last-resort branch of `calculate_air_quality_score`
(`risk_score.py` lines 224-227): neither `aqi is not None and aqi > 0`
nor `pm25 is not None and pm25 >= 0` holds. -/
def airNeutralBranch (aqi pm25 : Option ℚ) : Prop :=
  (match aqi with
   | some a => a ≤ 0
   | none => True) ∧
  (match pm25 with
   | some p => p < 0
   | none => True)

/-- **C10.** When the keys `aqi` and `pm25` are entirely absent,
`calculate_safety_score` substitutes AQI 50 and PM2.5 15.0, so the air
sub-score is `9.5` (the AQI-50 interpolation) rather than the neutral
`7.0`; the last-resort branch returns `7.0`, and after the
`data.get` substitution it is reachable iff `aqi` is explicitly null or
`≤ 0` and `pm25` is explicitly null or negative. -/
theorem C10_absent_air_keys (data : InputData) :
    (data.aqi = none → data.pm25 = none →
      calculate_air_quality_score (resolvedAqi data) (resolvedPm25 data) = 9.5) ∧
    (∀ aqi pm25 : Option ℚ, airNeutralBranch aqi pm25 →
      calculate_air_quality_score aqi pm25 = 7.0) ∧
    (airNeutralBranch (resolvedAqi data) (resolvedPm25 data) ↔
      ((data.aqi = some none ∨ ∃ x, data.aqi = some (some x) ∧ x ≤ 0) ∧
       (data.pm25 = some none ∨ ∃ y, data.pm25 = some (some y) ∧ y < 0))) := by
  refine ⟨?_, ?_, ?_⟩
  · intro h1 h2
    unfold resolvedAqi resolvedPm25
    rw [h1, h2]
    norm_num [calculate_air_quality_score]
  · rintro (_ | a) (_ | p) ⟨h1, h2⟩
    · rfl
    · unfold calculate_air_quality_score
      dsimp only
      rw [if_neg (not_le.mpr h2)]
    · unfold calculate_air_quality_score
      dsimp only
      rw [if_neg (not_lt.mpr h1)]
    · unfold calculate_air_quality_score
      dsimp only
      rw [if_neg (not_lt.mpr h1), if_neg (not_le.mpr h2)]
  · unfold resolvedAqi resolvedPm25
    obtain ⟨act, aq, pm, uv, el, we⟩ := data
    dsimp only
    rcases aq with _ | aqv <;> rcases pm with _ | pmv
    · norm_num [airNeutralBranch] <;> simp_all
    · rcases pmv with _ | y <;> norm_num [airNeutralBranch] <;> simp_all
    · rcases aqv with _ | x <;> norm_num [airNeutralBranch] <;> simp_all
    · rcases aqv with _ | x <;> rcases pmv with _ | y <;>
        norm_num [airNeutralBranch] <;> simp_all

/-- Witness for `C10_absent_air_keys`: the empty record and a concrete
null/negative pair reaching the neutral branch. -/
theorem C10_absent_air_keys_witness :
    calculate_air_quality_score (resolvedAqi {}) (resolvedPm25 {}) = 9.5 ∧
    calculate_air_quality_score (some 0) (some (-1)) = 7.0 :=
  ⟨(C10_absent_air_keys {}).1 rfl rfl,
   (C10_absent_air_keys {}).2.1 (some 0) (some (-1)) ⟨by norm_num, by norm_num⟩⟩


/-! ## Claim C8: warnings decomposition.  The block functions below are
modelled from the spec's wording of §4.6 — each tests only its own field
against the stated thresholds, absent fields yielding no warning — and the
theorem compares their concatenation, in the spec's fixed order, with the
source translation `generate_warnings`. -/

/-- Spec block: AQI `>200` hazardous / `>150` unhealthy / `>100`
sensitive-groups. -/
def aqiWarningsSpec : Option ℚ → List String
  | some a =>
    if 200 < a then [warn_aqi_hazardous]
    else if 150 < a then [warn_aqi_unhealthy]
    else if 100 < a then [warn_aqi_sensitive]
    else []
  | none => []

/-- Spec block: PM2.5 `>35` separately flagged. -/
def pm25WarningsSpec : Option ℚ → List String
  | some p => if 35 < p then [warn_pm25_high] else []
  | none => []

/-- Spec block: UV `≥11` extreme / `≥8` very-high / `≥6` high. -/
def uvWarningsSpec : Option ℚ → List String
  | some u =>
    if 11 ≤ u then [warn_uv_extreme]
    else if 8 ≤ u then [warn_uv_very_high]
    else if 6 ≤ u then [warn_uv_high]
    else []
  | none => []

/-- Spec block: temperature `>38` extreme heat / `>32` high / `<-15`
extreme cold / `<0` freezing. -/
def tempWarningsSpec : Option ℚ → List String
  | some t =>
    if 38 < t then [warn_heat_extreme]
    else if 32 < t then [warn_heat_high]
    else if t < -15 then [warn_cold_extreme]
    else if t < 0 then [warn_cold_freezing]
    else []
  | none => []

/-- Spec block: wind `>60` dangerous / `>40` high / `>25` moderate. -/
def windWarningsSpec : Option ℚ → List String
  | some w =>
    if 60 < w then [warn_wind_dangerous]
    else if 40 < w then [warn_wind_high]
    else if 25 < w then [warn_wind_moderate]
    else []
  | none => []

/-- Spec block: precipitation `>50` heavy / `>20` moderate. -/
def precipWarningsSpec : Option ℚ → List String
  | some p =>
    if 50 < p then [warn_precip_heavy]
    else if 20 < p then [warn_precip_moderate]
    else []
  | none => []

/-- Spec block: elevation `>4000` / `>3000` / `>2500`. -/
def elevationWarningsSpec : Option ℚ → List String
  | some e =>
    if 4000 < e then [warn_alt_very_high]
    else if 3000 < e then [warn_alt_high]
    else if 2500 < e then [warn_alt_moderate]
    else []
  | none => []

/-- Spec block: activity-specific combinations — aerobic activity with
AQI `>100`, then climbing with wind `>30`. -/
def activityWarningsSpec (activity : String) (aqi wind : Option ℚ) : List String :=
  (if activity = "running" ∨ activity = "cycling" ∨ activity = "trail_running" then
     match aqi with
     | some a => if 100 < a then [warn_aerobic_aqi] else []
     | none => []
   else []) ++
  (if activity = "rock_climbing" ∨ activity = "mountaineering" then
     match wind with
     | some w => if 30 < w then [warn_climb_wind] else []
     | none => []
   else [])

/-- **C8.** `generate_warnings` emits warnings in the fixed evaluation
order air quality → PM2.5 → UV → temperature → wind → precipitation →
elevation → activity combinations; each block is a function of its own
field only (no short-circuiting between fields), and an absent field
contributes no warning — in particular the empty record yields no
warnings at all. -/
theorem C8_warning_order_and_independence (data : InputData) :
    generate_warnings data =
      aqiWarningsSpec data.aqi.join ++
      pm25WarningsSpec data.pm25.join ++
      uvWarningsSpec data.uv_index.join ++
      tempWarningsSpec (data.weather.getD {}).temp_c ++
      windWarningsSpec (data.weather.getD {}).wind_speed_kmh ++
      precipWarningsSpec (data.weather.getD {}).precipitation_mm ++
      elevationWarningsSpec data.elevation.join ++
      activityWarningsSpec (pyLower (data.activity.getD "")) data.aqi.join
        (data.weather.getD {}).wind_speed_kmh ∧
    generate_warnings {} = [] := by
  constructor
  · unfold generate_warnings aqiWarningsSpec pm25WarningsSpec uvWarningsSpec
      tempWarningsSpec windWarningsSpec precipWarningsSpec elevationWarningsSpec
      activityWarningsSpec
    dsimp only
    rcases data.aqi.join with _ | a <;>
      rcases data.pm25.join with _ | p <;>
      rcases data.uv_index.join with _ | u <;>
      rcases data.elevation.join with _ | e <;>
      simp only [List.append_assoc]
  · rfl


/-! ## Claim C9: terrain decomposition -/

/-- `risk_score.py` lines 437-442: elevation resolution (null/negative to
sea level, clamp at 8850 m). -/
def terrainResolvedElevation (elevation : Option ℚ) : ℚ :=
  min (match elevation with
       | some e => if e < 0 then 0 else e
       | none => 0) 8850

/-- `risk_score.py` lines 444-458: the altitude base score table. -/
def terrainBaseScore (e : ℚ) : ℚ :=
  if e < 1500 then 10.0
  else if e < 2500 then 9.5 - (e - 1500) / 1000 * 0.5
  else if e < 3500 then 8.5 - (e - 2500) / 1000 * 1.5
  else if e < 5000 then 6.5 - (e - 3500) / 1500 * 2.5
  else max 0.0 (3.5 - (e - 5000) / 1000 * 0.9)

/-- Technical/alpine activity tags (claim C9). -/
def technicalActivities : List String := ["mountaineering", "rock_climbing", "alpinism"]

/-- High-aerobic activity tags (claim C9). -/
def aerobicActivities : List String := ["running", "trail_running", "cycling"]

/-- The additive activity adjustment exactly as claim C9 states it:
technical/alpine `+0.5` at or below 3500 m and `-0.5` above; high-aerobic
`-1.0` above 2000 m and `-0.5` above 1500 m; everything else
(hiking/trekking included) `0`. -/
def terrainAdjustmentClaimed (e : ℚ) (activity_lower : String) : ℚ :=
  if activity_lower ∈ technicalActivities then
    if 3500 < e then -0.5 else 0.5
  else if activity_lower ∈ aerobicActivities then
    if 2000 < e then -1.0 else if 1500 < e then -0.5 else 0.0
  else 0.0

set_option maxHeartbeats 1000000 in
/-- **C9.** The activity adjustment of `calculate_terrain_score` is
additive to the altitude base score, with the values the claim states
(technical: ±0.5 around 3500 m; high-aerobic: −1.0 above 2000 m, −0.5
above 1500 m; hiking/trekking: 0), and the final result is
`clamp(base + adjustment, 0, 10)`. -/
theorem C9_terrain_adjustment_additive (elevation : Option ℚ) (activity : String) :
    calculate_terrain_score elevation activity =
      max 0.0 (min 10.0
        (terrainBaseScore (terrainResolvedElevation elevation) +
         terrainAdjustmentClaimed (terrainResolvedElevation elevation)
           (pyLower activity))) ∧
    (∀ e : ℚ, terrainAdjustmentClaimed e "hiking" = 0 ∧
      terrainAdjustmentClaimed e "trekking" = 0) := by
  constructor
  · rcases elevation with _ | e <;>
      (unfold calculate_terrain_score terrainBaseScore terrainResolvedElevation
        terrainAdjustmentClaimed technicalActivities aerobicActivities
       dsimp only
       simp only [List.mem_cons, List.not_mem_nil, or_false]
       split_ifs <;> first | rfl | norm_num | linarith)
  · intro e
    constructor <;>
      (unfold terrainAdjustmentClaimed technicalActivities aerobicActivities
       simp only [List.mem_cons, List.not_mem_nil, or_false]
       rw [if_neg (by decide), if_neg (by decide)]
       norm_num)

/-! ## Claim C3: monotonicity (corrected) -/

/-- **C3 (counterexample).**  The claim fails as stated, twice over: with
PM2.5 fixed at 15.0, raising AQI from 0 to 1 raises the air sub-score
(AQI 0 falls through to the PM2.5 fallback, ≈7.843, while AQI 1 scores
9.99); and raising wind speed from 29.95 to 30 km/h raises the wind
component from 7.99835 to 8.0 (the 0.067 slope of the 15-30 band
overshoots 8.0). -/
theorem C3_monotonicity_counterexample :
    ((0:ℚ) ≤ 1 ∧
      calculate_air_quality_score (some 0) (some 15.0) <
        calculate_air_quality_score (some 1) (some 15.0)) ∧
    ((29.95:ℚ) ≤ 30 ∧ wind_score_of 29.95 < wind_score_of 30) := by
  refine ⟨⟨by norm_num, ?_⟩, by norm_num, ?_⟩
  · norm_num [calculate_air_quality_score]
  · norm_num [wind_score_of]

set_option maxHeartbeats 1600000 in
/-- **C3 (amended).**  Monotonicity as the code actually satisfies it:
the air sub-score is non-increasing in AQI on the primary path
(`0 < aqi₁ ≤ aqi₂`, any fixed PM2.5); the wind component is
non-increasing for `w₁ ≤ w₂` not separated by the 30 km/h band boundary;
the UV sub-score is non-increasing unconditionally. -/
theorem C3_monotonicity_amended :
    (∀ (a1 a2 : ℚ) (pm25 : Option ℚ), 0 < a1 → a1 ≤ a2 →
      calculate_air_quality_score (some a2) pm25 ≤
        calculate_air_quality_score (some a1) pm25) ∧
    (∀ w1 w2 : ℚ, w1 ≤ w2 → (w2 < 30 ∨ 30 ≤ w1) →
      wind_score_of w2 ≤ wind_score_of w1) ∧
    (∀ u1 u2 : ℚ, u1 ≤ u2 →
      calculate_uv_score (some u2) ≤ calculate_uv_score (some u1)) := by
  refine ⟨?_, ?_, ?_⟩
  · intro a1 a2 pm25 h1 h12
    unfold calculate_air_quality_score
    dsimp only
    rw [if_pos h1, if_pos (lt_of_lt_of_le h1 h12)]
    split_ifs <;>
      first
        | linarith
        | exact max_le (by linarith) (by linarith)
        | exact max_le_max le_rfl (by linarith)
  · intro w1 w2 h12 h30
    unfold wind_score_of
    rcases h30 with h30 | h30 <;> split_ifs <;>
      first
        | linarith
        | exact max_le (by linarith) (by linarith)
        | exact max_le_max le_rfl (by linarith)
  · intro u1 u2 h12
    unfold calculate_uv_score
    simp only [Option.getD_some]
    have hv : max 0 (min 20 u1) ≤ max 0 (min 20 u2) :=
      max_le_max le_rfl (min_le_min le_rfl h12)
    split_ifs <;>
      first
        | linarith
        | exact max_le (by linarith) (by linarith)
        | exact max_le_max le_rfl (by linarith)

/-- Witness for `C3_monotonicity_amended` at concrete inputs. -/
theorem C3_monotonicity_amended_witness :
    ((0:ℚ) < 10 ∧ (10:ℚ) ≤ 20 ∧
      calculate_air_quality_score (some 20) none ≤
        calculate_air_quality_score (some 10) none) ∧
    ((10:ℚ) ≤ 20 ∧ wind_score_of 20 ≤ wind_score_of 10) ∧
    ((1:ℚ) ≤ 3 ∧ calculate_uv_score (some 3) ≤ calculate_uv_score (some 1)) :=
  ⟨⟨by norm_num, by norm_num,
    C3_monotonicity_amended.1 10 20 none (by norm_num) (by norm_num)⟩,
   ⟨by norm_num,
    C3_monotonicity_amended.2.1 10 20 (by norm_num) (Or.inl (by norm_num))⟩,
   ⟨by norm_num, C3_monotonicity_amended.2.2 1 3 (by norm_num)⟩⟩

/-! ## Claim C4: EPA-band interpolation (corrected) -/

/-- The interpolation map exactly as claim C4 states it: per band
`score = hi_score - (value - lo_bound)/band_width * (hi_score - lo_score)`
with the claimed score ranges 10↓9.5, 8↓5.5, 5.5↓3.5, 3.5↓1.5, 1.5↓0.5,
0.5↓0. -/
def airInterpClaimed (value : ℚ) : ℚ :=
  if value ≤ 50 then 10 - (value - 0) / 50 * (10 - 9.5)
  else if value ≤ 100 then 8 - (value - 50) / 50 * (8 - 5.5)
  else if value ≤ 150 then 5.5 - (value - 100) / 50 * (5.5 - 3.5)
  else if value ≤ 200 then 3.5 - (value - 150) / 50 * (3.5 - 1.5)
  else if value ≤ 300 then 1.5 - (value - 200) / 100 * (1.5 - 0.5)
  else max 0 (0.5 - (value - 300) / 200 * (0.5 - 0))

/-- **C4 (counterexample).**  At AQI 100 the code returns 6.8 while the
claim's interpolation (band 51-100 mapped onto 8↓5.5) gives 5.5: the
claimed lower endpoints of bands 2-4 (5.5, 3.5, 1.5) do not match the
code (6.8, 4.0, 2.0). -/
theorem C4_air_interpolation_counterexample :
    calculate_air_quality_score (some 100) none = 6.8 ∧
    airInterpClaimed 100 = 5.5 ∧
    calculate_air_quality_score (some 100) none ≠ airInterpClaimed 100 := by
  refine ⟨?_, ?_, ?_⟩ <;> norm_num [calculate_air_quality_score, airInterpClaimed]

/-- The interpolation map with the score ranges the code actually uses:
10↓9.5, 8↓6.8, 5.5↓4.0, 3.5↓2.0, 1.5↓0.5, and 0.5↓0 over a width-200
band floored at 0. -/
def airInterpAmended (value : ℚ) : ℚ :=
  if value ≤ 50 then 10 - (value - 0) / 50 * (10 - 9.5)
  else if value ≤ 100 then 8 - (value - 50) / 50 * (8 - 6.8)
  else if value ≤ 150 then 5.5 - (value - 100) / 50 * (5.5 - 4.0)
  else if value ≤ 200 then 3.5 - (value - 150) / 50 * (3.5 - 2.0)
  else if value ≤ 300 then 1.5 - (value - 200) / 100 * (1.5 - 0.5)
  else max 0 (0.5 - (value - 300) / 200 * (0.5 - 0))

/-- **C4 (amended).**  For every `aqi > 0` the code computes the linear
band interpolation `hi - (value - lo)/width * (hi - lo_score)`, with the
band score ranges corrected to 10↓9.5, 8↓6.8, 5.5↓4.0, 3.5↓2.0, 1.5↓0.5,
0.5↓0. -/
theorem C4_air_interpolation_amended (a : ℚ) (pm25 : Option ℚ) (h : 0 < a) :
    calculate_air_quality_score (some a) pm25 = airInterpAmended a := by
  unfold calculate_air_quality_score airInterpAmended
  dsimp only
  rw [if_pos h]
  split_ifs <;>
    first
      | ring_nf
      | norm_num
      | (congr 1 <;> first | norm_num | ring)

/-- Witness for `C4_air_interpolation_amended` at AQI 75. -/
theorem C4_air_interpolation_amended_witness :
    (0:ℚ) < 75 ∧ calculate_air_quality_score (some 75) none = airInterpAmended 75 :=
  ⟨by norm_num, C4_air_interpolation_amended 75 none (by norm_num)⟩

/-! ## Claim C5: weather extraction defaults (code bug) -/

/-- **C5 (code evaluation).**  The `or`-chains at `risk_score.py`
302-316 treat a present value `0` as falsy: a record with `temp_c = 0.0`
(or `wind_speed_kmh = 0.0`) extracts to the default 20 °C (10 km/h), and
the weather score at `temp_c = 0.0` equals the all-defaults score, while
`humidity = 0` (fetched without `or`) is kept as-is. -/
theorem C5_present_zero_replaced_by_default :
    weatherExtract { temp_c := some 0 } = (20, 10, 0, 50) ∧
    weatherExtract { wind_speed_kmh := some 0 } = (20, 10, 0, 50) ∧
    weatherExtract {} = (20, 10, 0, 50) ∧
    weatherExtract { humidity := some 0 } = (20, 10, 0, 0) ∧
    calculate_weather_score id { temp_c := some 0 } =
      calculate_weather_score id {} := by
  refine ⟨rfl, rfl, rfl, rfl, rfl⟩


set_option maxHeartbeats 1000000 in
/-- Witness for `C2_category_thresholds`: the all-defaults record lands in
the Excellent band, and the partition is instantiated at total 9. -/
theorem C2_category_thresholds_witness :
    (calculate_safety_score id ({} : InputData)).category = "Excellent" ∧
    (∃! i : Fin 5, categoryCond i (9:ℚ)) := by
  constructor
  · obtain ⟨total, htot, hsc, hcat, hadv⟩ := (C2_category_thresholds id {}).1
    have e1 : pyLower "hiking" = "hiking" := rfl
    rw [hcat, htot]
    simp [calculate_air_quality_score, calculate_weather_score,
      calculate_uv_score, calculate_terrain_score, resolvedAqi, resolvedPm25,
      weatherExtract, pyOr, temp_score_of, wind_score_of, precip_score_of,
      humidity_score_of, calculate_heat_index, calculate_wind_chill, e1,
      AIR_QUALITY_WEIGHT, WEATHER_WEIGHT, UV_WEIGHT, TERRAIN_WEIGHT]
    norm_num
  · exact (C2_category_thresholds id {}).2 9


/-! ## Checklist engine (`checklist.py`) -/

/-- One checklist item dict (`checklist.py`), fields in source order.
Interpolated measurement values inside `reason` strings are rendered with
`toString` on exact rationals, which agrees with Python for the integer
values exercised here; no claim depends on `reason` text. -/
structure ChecklistItem where
  item : String
  required : Bool
  reason : String
  category : String
deriving Repr, DecidableEq

/-- The `risk_data` dict consumed by `generate_checklist`
(`checklist.py` lines 36-39); each key present or absent. -/
structure RiskData where
  aqi : Option ℚ := none
  pm25 : Option ℚ := none
  uv_index : Option ℚ := none
  elevation : Option ℚ := none
deriving Repr, DecidableEq

/-- The `"hiking"` entry of `BASE_CHECKLISTS` (`checklist.py` lines
404-415); also the fallback for unknown activities. -/
def hikingBaseChecklist : List ChecklistItem :=
  [⟨"Hiking boots or trail shoes", true, "Proper footwear for terrain", "clothing"⟩,
   ⟨"Backpack (20-30L)", true, "Carry gear and supplies", "gear"⟩,
   ⟨"Water (2L minimum)", true, "Stay hydrated", "hydration"⟩,
   ⟨"Trail map or GPS device", true, "Navigation", "navigation"⟩,
   ⟨"First aid kit", true, "Emergency medical care", "medical"⟩,
   ⟨"Sunscreen", true, "Sun protection", "sun_protection"⟩,
   ⟨"Snacks or energy bars", true, "Maintain energy levels", "nutrition"⟩,
   ⟨"Whistle", false, "Emergency signaling", "safety"⟩,
   ⟨"Headlamp or flashlight", false, "If return after dark", "safety"⟩,
   ⟨"Trekking poles", false, "Stability and reduced joint impact", "gear"⟩]

/-- `checklist.py` lines 400-494, `get_base_checklist`. -/
def get_base_checklist (activity : String) : List ChecklistItem :=
  match pyLower activity with
  | "hiking" => hikingBaseChecklist
  | "trail_running" =>
    [⟨"Trail running shoes", true, "Proper footwear for terrain", "clothing"⟩,
     ⟨"Hydration vest or handheld bottle", true, "Stay hydrated while moving", "hydration"⟩,
     ⟨"Phone with emergency contacts", true, "Emergency communication", "safety"⟩,
     ⟨"Energy gels or chews", true, "Quick energy during run", "nutrition"⟩,
     ⟨"Sunscreen", true, "Sun protection", "sun_protection"⟩,
     ⟨"Basic first aid supplies", false, "Treat minor injuries", "medical"⟩,
     ⟨"Whistle", false, "Emergency signaling", "safety"⟩]
  | "running" =>
    [⟨"Running shoes", true, "Proper footwear", "clothing"⟩,
     ⟨"Water bottle", true, "Hydration", "hydration"⟩,
     ⟨"Phone", true, "Emergency communication", "safety"⟩,
     ⟨"Sunscreen", true, "Sun protection", "sun_protection"⟩]
  | "cycling" =>
    [⟨"Helmet", true, "Head protection (legal requirement)", "safety"⟩,
     ⟨"Water bottles (2x)", true, "Stay hydrated", "hydration"⟩,
     ⟨"Bike repair kit (tire levers, patches)", true, "Fix flat tires", "gear"⟩,
     ⟨"Spare tube", true, "Quick tire replacement", "gear"⟩,
     ⟨"Pump or CO2 inflator", true, "Inflate repaired tire", "gear"⟩,
     ⟨"Multi-tool", true, "Bike adjustments", "gear"⟩,
     ⟨"Sunscreen", true, "Sun protection", "sun_protection"⟩,
     ⟨"Sunglasses", false, "Eye protection and visibility", "sun_protection"⟩,
     ⟨"Phone", true, "Emergency communication", "safety"⟩,
     ⟨"Energy bars", false, "Maintain energy on long rides", "nutrition"⟩]
  | "camping" =>
    [⟨"Tent with rain fly", true, "Shelter", "shelter"⟩,
     ⟨"Sleeping bag (temperature rated)", true, "Warmth at night", "shelter"⟩,
     ⟨"Sleeping pad or mattress", true, "Insulation and comfort", "shelter"⟩,
     ⟨"Camping stove and fuel", true, "Cook meals", "cooking"⟩,
     ⟨"Cookware and utensils", true, "Prepare and eat food", "cooking"⟩,
     ⟨"Food (planned meals)", true, "Nutrition", "nutrition"⟩,
     ⟨"Water filter or purification tablets", true, "Safe drinking water", "hydration"⟩,
     ⟨"Water containers (3L+)", true, "Water storage", "hydration"⟩,
     ⟨"Headlamp with extra batteries", true, "Night visibility", "safety"⟩,
     ⟨"First aid kit (comprehensive)", true, "Medical emergencies", "medical"⟩,
     ⟨"Multi-tool or knife", true, "Various tasks", "gear"⟩,
     ⟨"Fire starter (matches/lighter)", true, "Cooking and warmth", "gear"⟩,
     ⟨"Trash bags", true, "Leave no trace", "gear"⟩,
     ⟨"Bear canister or bag (if required)", false, "Food storage in bear country", "safety"⟩]
  | "rock_climbing" =>
    [⟨"Climbing shoes", true, "Footwork and grip", "clothing"⟩,
     ⟨"Harness", true, "Safety system", "safety"⟩,
     ⟨"Helmet", true, "Head protection from falls/rockfall", "safety"⟩,
     ⟨"Rope (appropriate length/type)", true, "Protection system", "safety"⟩,
     ⟨"Belay device", true, "Control rope during belay", "safety"⟩,
     ⟨"Carabiners (locking and non-locking)", true, "Connect protection", "safety"⟩,
     ⟨"Quickdraws (6-12)", true, "Clip rope to protection", "safety"⟩,
     ⟨"Chalk bag", false, "Hand grip", "gear"⟩,
     ⟨"First aid kit", true, "Emergency medical care", "medical"⟩,
     ⟨"Water (2L+)", true, "Hydration", "hydration"⟩]
  | "mountaineering" =>
    [⟨"Mountaineering boots (crampon-compatible)", true, "Protect feet in harsh conditions", "clothing"⟩,
     ⟨"Crampons", true, "Ice and snow traction", "gear"⟩,
     ⟨"Ice axe", true, "Self-arrest and climbing", "gear"⟩,
     ⟨"Helmet", true, "Rockfall and ice fall protection", "safety"⟩,
     ⟨"Harness and rope", true, "Glacier travel and protection", "safety"⟩,
     ⟨"Insulated jacket (down or synthetic)", true, "Warmth at altitude", "clothing"⟩,
     ⟨"Layers (base, mid, shell)", true, "Temperature regulation", "clothing"⟩,
     ⟨"Goggles and sunglasses", true, "Snow blindness prevention", "sun_protection"⟩,
     ⟨"Sunscreen SPF 50+", true, "UV reflection from snow", "sun_protection"⟩,
     ⟨"Headlamp", true, "Early starts and emergencies", "safety"⟩,
     ⟨"Emergency bivouac gear", true, "Unexpected night out", "safety"⟩,
     ⟨"First aid kit (comprehensive)", true, "Medical emergencies", "medical"⟩,
     ⟨"Water (3L+) and insulated bottle", true, "Prevent freezing", "hydration"⟩]
  | _ => hikingBaseChecklist

/-- `checklist.py` lines 29-379: the base list plus every conditional
append, in source order (each `if/elif` chain becomes one guarded
sublist). -/
def checklistRaw (activity : String) (risk_data : RiskData) (weather : Weather) :
    List ChecklistItem :=
  let activity := pyLower activity
  let base_items := get_base_checklist activity
  let aqi := risk_data.aqi.getD 50
  let _pm25 := risk_data.pm25.getD 15.0
  let uv_index := risk_data.uv_index.getD 5.0
  let elevation := risk_data.elevation.getD 0
  let temp_c := weather.temp_c.getD (weather.temp.getD 20)
  let wind_speed := weather.wind_speed_kmh.getD (weather.wind_speed.getD 10)
  let precipitation := weather.precipitation_mm.getD 0
  let _humidity := weather.humidity.getD 50
  base_items ++
  -- air quality items
  (if 150 < aqi then
     [⟨"N95 or P100 respirator mask", true,
       "Air quality is unhealthy (AQI " ++ toString aqi ++ ")", "respiratory"⟩]
   else if 100 < aqi then
     [⟨"N95 mask (especially for sensitive individuals)", false,
       "Air quality is moderate to unhealthy (AQI " ++ toString aqi ++ ")", "respiratory"⟩]
   else []) ++
  (if 150 < aqi then
     [⟨"Eye drops or protective eyewear", false,
       "Poor air quality can irritate eyes", "respiratory"⟩]
   else []) ++
  -- temperature items
  (if 35 < temp_c then
     [⟨"Extra water (4-6L minimum)", true,
       "Extreme heat forecast (" ++ toString temp_c ++ "°C)", "hydration"⟩,
      ⟨"Electrolyte tablets or sports drinks", true,
       "High risk of dehydration and electrolyte loss", "hydration"⟩,
      ⟨"Cooling towel or bandana", false,
       "Helps manage body temperature", "clothing"⟩,
      ⟨"Wide-brimmed hat", true, "Protection from intense sun", "clothing"⟩]
   else if 30 < temp_c then
     [⟨"Extra water (3L minimum)", true,
       "High temperatures forecast (" ++ toString temp_c ++ "°C)", "hydration"⟩,
      ⟨"Hat with sun protection", true, "Prevent heat exhaustion", "clothing"⟩]
   else []) ++
  (if temp_c < -10 then
     [⟨"Insulated winter jacket (down or synthetic)", true,
       "Extreme cold forecast (" ++ toString temp_c ++ "°C)", "clothing"⟩,
      ⟨"Winter gloves (with liners)", true, "Prevent frostbite", "clothing"⟩,
      ⟨"Balaclava or face mask", true,
       "Protect face from freezing temperatures", "clothing"⟩,
      ⟨"Insulated boots (rated for temperature)", true,
       "Prevent frostbite on feet", "clothing"⟩,
      ⟨"Emergency bivouac sack", true, "Emergency shelter in extreme cold", "safety"⟩]
   else if temp_c < 0 then
     [⟨"Winter jacket and layers", true,
       "Below freezing temperatures (" ++ toString temp_c ++ "°C)", "clothing"⟩,
      ⟨"Gloves and warm hat", true, "Protect extremities from cold", "clothing"⟩,
      ⟨"Hand warmers", false, "Additional warmth for hands", "comfort"⟩]
   else if temp_c < 10 then
     [⟨"Light jacket or fleece", true,
       "Cool temperatures (" ++ toString temp_c ++ "°C)", "clothing"⟩,
      ⟨"Long sleeves base layer", false, "Layering for warmth", "clothing"⟩]
   else []) ++
  -- UV protection
  (if 11 ≤ uv_index then
     [⟨"Sunscreen SPF 50+ (reapply every 2 hours)", true,
       "Extreme UV index (" ++ toString uv_index ++ ")", "sun_protection"⟩,
      ⟨"UV-blocking sunglasses", true, "Protect eyes from intense UV", "sun_protection"⟩,
      ⟨"Sun-protective clothing (UPF 50+)", true,
       "Minimize skin exposure to UV", "clothing"⟩,
      ⟨"Lip balm with SPF", false, "Protect lips from sun damage", "sun_protection"⟩]
   else if 8 ≤ uv_index then
     [⟨"Sunscreen SPF 50+", true,
       "Very high UV index (" ++ toString uv_index ++ ")", "sun_protection"⟩,
      ⟨"Sunglasses with UV protection", true,
       "Protect eyes from UV damage", "sun_protection"⟩,
      ⟨"Hat with brim or neck flap", true,
       "Shield face and neck from sun", "clothing"⟩]
   else if 6 ≤ uv_index then
     [⟨"Sunscreen SPF 30+", true,
       "High UV index (" ++ toString uv_index ++ ")", "sun_protection"⟩]
   else []) ++
  -- wind protection
  (if 60 < wind_speed then
     [⟨"Sturdy windproof shell jacket", true,
       "Dangerous wind speeds (" ++ toString wind_speed ++ " km/h)", "clothing"⟩,
      ⟨"Goggles or protective eyewear", true,
       "Protect eyes from wind and debris", "safety"⟩]
   else if 40 < wind_speed then
     [⟨"Windproof jacket", true,
       "High winds forecast (" ++ toString wind_speed ++ " km/h)", "clothing"⟩]
   else if 25 < wind_speed then
     [⟨"Light windbreaker", false,
       "Moderate winds (" ++ toString wind_speed ++ " km/h)", "clothing"⟩]
   else []) ++
  -- rain protection
  (if 50 < precipitation then
     [⟨"Waterproof rain jacket and pants", true,
       "Heavy rain forecast (" ++ toString precipitation ++ "mm)", "rain_gear"⟩,
      ⟨"Waterproof backpack cover or dry bags", true,
       "Protect gear from getting soaked", "rain_gear"⟩,
      ⟨"Extra dry clothes in waterproof bag", true,
       "Change if primary clothes get wet", "clothing"⟩,
      ⟨"Waterproof boots or gaiters", true, "Keep feet dry", "rain_gear"⟩]
   else if 20 < precipitation then
     [⟨"Rain jacket", true,
       "Moderate rain forecast (" ++ toString precipitation ++ "mm)", "rain_gear"⟩,
      ⟨"Waterproof backpack cover", false, "Protect gear from rain", "rain_gear"⟩]
   else if 5 < precipitation then
     [⟨"Light rain jacket", false,
       "Light rain possible (" ++ toString precipitation ++ "mm)", "rain_gear"⟩]
   else []) ++
  -- elevation items
  (if 4000 < elevation then
     [⟨"Altitude sickness medication (Diamox)", true,
       "Very high altitude (" ++ toString elevation ++ "m)", "medical"⟩,
      ⟨"Pulse oximeter", false, "Monitor oxygen saturation", "medical"⟩,
      ⟨"Extra high-energy snacks", true,
       "Body burns more calories at high altitude", "nutrition"⟩]
   else if 3000 < elevation then
     [⟨"Altitude sickness medication (optional)", false,
       "High altitude (" ++ toString elevation ++ "m)", "medical"⟩]
   else []) ++
  -- activity-specific additions
  (if (activity = "running" ∨ activity = "trail_running" ∨ activity = "cycling") ∧
      100 < aqi then
     [⟨"Consider indoor alternative", false,
       "Aerobic activity in poor air quality is hazardous", "safety"⟩]
   else []) ++
  (if (activity = "rock_climbing" ∨ activity = "mountaineering") ∧ 40 < wind_speed then
     [⟨"Consider postponing activity", false,
       "Climbing in high winds is extremely dangerous", "safety"⟩]
   else []) ++
  -- general safety items
  (if 32 < temp_c ∨ temp_c < -5 ∨ 150 < aqi then
     [⟨"Emergency communication device (satellite phone/PLB)", false,
       "Hazardous conditions increase emergency risk", "safety"⟩]
   else [])

/-- `checklist.py` lines 381-388: remove duplicates by case-insensitive
item text, keeping the first occurrence (`seen` is the accumulator of
lower-cased names already kept). -/
def dedupKeepFirst (seen : List String) : List ChecklistItem → List ChecklistItem
  | [] => []
  | item :: rest =>
    let item_name := pyLower item.item
    if item_name ∈ seen then dedupKeepFirst seen rest
    else item :: dedupKeepFirst (item_name :: seen) rest

/-- The Python sort key `(not required, category, item)` under
lexicographic tuple comparison.  Python compares strings by code points;
the lexicographic order on `String.data : List Char` (with `Char` ordered
by code point) is exactly that comparison, and unlike core's
`String.ltb` it reduces in the kernel. -/
def checklistKey (x : ChecklistItem) : Bool ×ₗ (List Char ×ₗ List Char) :=
  toLex (!x.required, toLex (x.category.data, x.item.data))

/-- The sort order of `checklist.py` lines 390-394. -/
def checklistLe (a b : ChecklistItem) : Prop := checklistKey a ≤ checklistKey b

instance : DecidableRel checklistLe :=
  fun a b => inferInstanceAs (Decidable (checklistKey a ≤ checklistKey b))

instance : IsTotal ChecklistItem checklistLe :=
  ⟨fun a b => le_total (checklistKey a) (checklistKey b)⟩

instance : IsTrans ChecklistItem checklistLe :=
  ⟨fun _ _ _ h1 h2 => le_trans h1 h2⟩

/-- `checklist.py` lines 8-397, `generate_checklist`: build, deduplicate,
then stable-sort by `(not required, category, item)` (Python `sorted` is
a stable sort; so is `List.insertionSort`). -/
def generate_checklist (activity : String) (risk_data : RiskData)
    (weather : Weather) : List ChecklistItem :=
  List.insertionSort checklistLe
    (dedupKeepFirst [] (checklistRaw activity risk_data weather))


/-- The deduplication pass produces pairwise-distinct lower-cased item
names, none of which lie in the accumulator `seen`. -/
theorem dedupKeepFirst_nodup (l : List ChecklistItem) (seen : List String) :
    ((dedupKeepFirst seen l).map (fun x => pyLower x.item)).Nodup ∧
    ∀ x ∈ dedupKeepFirst seen l, pyLower x.item ∉ seen := by
  induction l generalizing seen with
  | nil => simp [dedupKeepFirst]
  | cons hd tl ih =>
    unfold dedupKeepFirst
    dsimp only
    by_cases h : pyLower hd.item ∈ seen
    · rw [if_pos h]
      exact ⟨(ih seen).1, fun x hx => (ih seen).2 x hx⟩
    · rw [if_neg h]
      refine ⟨?_, ?_⟩
      · rw [List.map_cons, List.nodup_cons]
        refine ⟨?_, (ih _).1⟩
        intro hmem
        obtain ⟨y, hy, hey⟩ := List.mem_map.mp hmem
        exact (ih _).2 y hy (by rw [hey]; exact List.mem_cons_self _ _)
      · intro x hx
        rcases List.mem_cons.mp hx with rfl | hx
        · exact h
        · intro hxs
          exact (ih _).2 x hx (List.mem_cons_of_mem _ hxs)

/-- **C6.** Every generated checklist is sorted ascending by the key
`(not required, category, item)`, contains no two items with the same
case-insensitive text, and no optional item ever precedes a required one.
(Determinism — identical inputs giving identical lists — holds
definitionally: `generate_checklist` is a pure function.) -/
theorem C6_checklist_dedup_sorted (activity : String) (risk_data : RiskData)
    (weather : Weather) :
    List.Sorted checklistLe (generate_checklist activity risk_data weather) ∧
    ((generate_checklist activity risk_data weather).map
      (fun x => pyLower x.item)).Nodup ∧
    (∀ i j : ℕ, ∀ hi : i < (generate_checklist activity risk_data weather).length,
      ∀ hj : j < (generate_checklist activity risk_data weather).length,
      i < j →
      ((generate_checklist activity risk_data weather).get ⟨j, hj⟩).required = true →
      ((generate_checklist activity risk_data weather).get ⟨i, hi⟩).required = true) := by
  have hsorted : List.Sorted checklistLe (generate_checklist activity risk_data weather) :=
    List.sorted_insertionSort checklistLe _
  refine ⟨hsorted, ?_, ?_⟩
  · have hperm : List.Perm
        ((generate_checklist activity risk_data weather).map (fun x => pyLower x.item))
        ((dedupKeepFirst [] (checklistRaw activity risk_data weather)).map
          (fun x => pyLower x.item)) :=
      (List.perm_insertionSort checklistLe _).map _
    exact hperm.nodup_iff.mpr (dedupKeepFirst_nodup _ _).1
  · intro i j hi hj hij hreq
    have hrel := hsorted.rel_get_of_lt (a := ⟨i, hi⟩) (b := ⟨j, hj⟩)
      (Fin.mk_lt_mk.mpr hij)
    by_contra hne
    rw [Bool.not_eq_true] at hne
    unfold checklistLe checklistKey at hrel
    rw [hreq, hne] at hrel
    rcases (Prod.Lex.le_iff _ _).mp hrel with h | ⟨h, _⟩
    · simp only [Bool.not_false, Bool.not_true] at h
      exact absurd h (by decide)
    · simp only [Bool.not_false, Bool.not_true] at h
      exact absurd h (by decide)


/-- Witness for `C6_checklist_dedup_sorted`: the hiking checklist for a
fully-specified mild-conditions record; the required-first implication is
discharged at indices 0 < 1 (item 1 is required, hence so is item 0). -/
theorem C6_checklist_dedup_sorted_witness :
    List.Sorted checklistLe (generate_checklist "hiking" ⟨some 50, some 15, some 5, some 0⟩
      ⟨some 20, none, none, some 10, none, some 0, none, some 50⟩) ∧
    ((generate_checklist "hiking" ⟨some 50, some 15, some 5, some 0⟩
      ⟨some 20, none, none, some 10, none, some 0, none, some 50⟩).map
        (fun x => pyLower x.item)).Nodup ∧
    ((generate_checklist "hiking" ⟨some 50, some 15, some 5, some 0⟩
      ⟨some 20, none, none, some 10, none, some 0, none, some 50⟩).get
        ⟨0, by decide⟩).required = true :=
  ⟨(C6_checklist_dedup_sorted _ _ _).1,
   (C6_checklist_dedup_sorted _ _ _).2.1,
   (C6_checklist_dedup_sorted _ _ _).2.2 0 1 (by decide) (by decide) (by decide)
     (by decide)⟩

end SafeOutdoor
